import Mathlib

/-!
Verification of the Token class of the XML tokenizer fragment
(reference/XML/token.inl) against its specification.

The class stores a non-owning text span (a character pointer plus a
length) together with a lexical-category tag, and exposes two
constructors, two setters and two getters.  Pointers are modelled as
natural-number addresses (0 standing for the null pointer); the
unsigned integer types uInt and uInt2 carry their values verbatim here
(no arithmetic is ever performed on them in the source, so no overflow
reduction is needed).
-/

/-- Character-pointer type of the source (cString); modelled as an
address into the backing buffer, with 0 for the null pointer. -/
abbrev cString := Nat

/-- Unsigned length type of the source (uInt). -/
abbrev uInt := Nat

/-- Unsigned 16-bit tag type of the source (uInt2); values are stored
and returned verbatim, never computed with, so Nat is faithful. -/
abbrev uInt2 := Nat

/-- Modelled from the spec: the Text span class is declared in headers
that are not part of the visible source (token.h and the text header
are absent).  Spec section 4.1: construction copies the
(start, length) pair and the span is an immutable value thereafter. -/
structure Text where
  start : cString
  length : uInt
deriving DecidableEq

/-- The Token record of token.inl: member fields m_buffer, m_length,
m_type. -/
structure Token where
  m_buffer : cString
  m_length : uInt
  m_type : uInt2
deriving DecidableEq

/-- Token::Token(void): the default constructor has an empty body and
no initializer list, so every field keeps whatever indeterminate
content the storage held; the model makes that content an explicit
parameter. -/
def Token.mkDefault (junk : Token) : Token :=
  junk

/-- Token::Token(cString, uInt, uInt2): initializes m_buffer, m_length
and m_type from the arguments. -/
def Token.construct (buffer : cString) (length : uInt) (type : uInt2) : Token :=
  ⟨buffer, length, type⟩

/-- Token::SetText: assigns m_buffer and m_length; m_type untouched. -/
def Token.SetText (t : Token) (buffer : cString) (length : uInt) : Token :=
  ⟨buffer, length, t.m_type⟩

/-- Token::GetText: returns Text(m_buffer, m_length) by value. -/
def Token.GetText (t : Token) : Text :=
  ⟨t.m_buffer, t.m_length⟩

/-- Token::SetType: assigns m_type; span fields untouched. -/
def Token.SetType (t : Token) (type : uInt2) : Token :=
  ⟨t.m_buffer, t.m_length, type⟩

/-- Token::GetType: returns m_type. -/
def Token.GetType (t : Token) : uInt2 :=
  t.m_type

/-- The characters a token views inside an explicit backing buffer:
the m_length characters starting at address m_buffer.  No Token
operation ever writes to the buffer, which this function makes
checkable. -/
def readChars (buf : List Char) (t : Token) : List Char :=
  (buf.drop t.m_buffer).take t.m_length

/-- Two tokens view overlapping subranges of the same buffer. -/
def overlaps (t1 t2 : Token) : Prop :=
  t1.m_buffer < t2.m_buffer + t2.m_length ∧
    t2.m_buffer < t1.m_buffer + t1.m_length

instance (t1 t2 : Token) : Decidable (overlaps t1 t2) :=
  inferInstanceAs (Decidable (And _ _))

/-- A scanner state holding the shared backing buffer and two tokens
constructed over it; used to state non-interference of mutations. -/
structure ScanState where
  buf : List Char
  t1 : Token
  t2 : Token

/-- SetText applied to the first token of a scanner state. -/
def ScanState.setText1 (s : ScanState) (b : cString) (l : uInt) : ScanState :=
  ⟨s.buf, s.t1.SetText b l, s.t2⟩

/-- SetType applied to the first token of a scanner state. -/
def ScanState.setType1 (s : ScanState) (ty : uInt2) : ScanState :=
  ⟨s.buf, s.t1.SetType ty, s.t2⟩

/-- SetText applied to the second token of a scanner state. -/
def ScanState.setText2 (s : ScanState) (b : cString) (l : uInt) : ScanState :=
  ⟨s.buf, s.t1, s.t2.SetText b l⟩

/-- SetType applied to the second token of a scanner state. -/
def ScanState.setType2 (s : ScanState) (ty : uInt2) : ScanState :=
  ⟨s.buf, s.t1, s.t2.SetType ty⟩

/-- C1: for every buffer pointer, length and type value, the combined
constructor Token(start, length, type) followed by GetText() yields
the span (start, length), and GetType() yields type. -/
theorem construct_getters (b : cString) (l : uInt) (ty : uInt2) :
    (Token.construct b l ty).GetText = Text.mk b l ∧
      (Token.construct b l ty).GetType = ty := by
  exact ⟨rfl, rfl⟩

/-- C2 counterexample: the default constructor initializes nothing, so
two default-constructed Tokens (modelled by their indeterminate field
contents) can return different GetType() results; the claim that any
two default-constructed Tokens yield identical results is false. -/
theorem default_not_deterministic :
    (Token.mkDefault ⟨0, 0, 0⟩).GetType ≠ (Token.mkDefault ⟨0, 0, 1⟩).GetType := by
  decide

/-- C2 amended: on one default-constructed Token the getters are pure
functions of its (indeterminate) field contents, so repeated calls
with no intervening mutation return identical results — GetType()
returns exactly the m_type content and GetText() exactly the
(m_buffer, m_length) content — but the contents themselves are
whatever the storage held, so distinct default-constructed Tokens need
not agree. -/
theorem default_getters_fixed (j : Token) :
    (Token.mkDefault j).GetType = j.m_type ∧
      (Token.mkDefault j).GetText = Text.mk j.m_buffer j.m_length ∧
      (Token.mkDefault j).GetType = (Token.mkDefault j).GetType ∧
      (Token.mkDefault j).GetText = (Token.mkDefault j).GetText := by
  exact ⟨rfl, rfl, rfl, rfl⟩

/-- C3: SetText(start2, length2) makes GetText() return exactly
(start2, length2) and leaves GetType() unchanged. -/
theorem setText_getText_getType (t : Token) (b2 : cString) (l2 : uInt) :
    (t.SetText b2 l2).GetText = Text.mk b2 l2 ∧
      (t.SetText b2 l2).GetType = t.GetType := by
  exact ⟨rfl, rfl⟩

/-- C4: SetType(type2) makes GetType() return type2 and leaves
GetText() unchanged. -/
theorem setType_getType_getText (t : Token) (ty2 : uInt2) :
    (t.SetType ty2).GetType = ty2 ∧
      (t.SetType ty2).GetText = t.GetText := by
  exact ⟨rfl, rfl⟩

/-- C5: the combined constructor is observationally equal (same
GetText() and GetType() results) to default construction — whatever
indeterminate content that leaves behind — followed by SetText and
SetType. -/
theorem construct_equiv_default_then_set (j : Token) (b : cString) (l : uInt) (ty : uInt2) :
    (((Token.mkDefault j).SetText b l).SetType ty).GetText =
        (Token.construct b l ty).GetText ∧
      (((Token.mkDefault j).SetText b l).SetType ty).GetType =
        (Token.construct b l ty).GetType := by
  exact ⟨rfl, rfl⟩

/-- C6: GetText() returns a copy with value semantics: a span s
obtained from t.GetText() is exactly (m_buffer, m_length) at the time
of the call, the mutated token returns the new span, the original span
value is unchanged by the mutation, and whenever the new pair differs
from the old one the previously returned value differs from the
mutated token's span — so s is not an alias into the token. -/
theorem getText_value_semantics (t : Token) (s : Text) (b2 : cString) (l2 : uInt)
    (h : s = t.GetText) :
    s = Text.mk t.m_buffer t.m_length ∧
      (t.SetText b2 l2).GetText = Text.mk b2 l2 ∧
      s = t.GetText ∧
      (b2 ≠ t.m_buffer ∨ l2 ≠ t.m_length → s ≠ (t.SetText b2 l2).GetText) := by
  subst h
  refine ⟨rfl, rfl, rfl, ?_⟩
  intro hd he
  rcases hd with hb | hl
  · exact hb (congrArg Text.start he.symm)
  · exact hl (congrArg Text.length he.symm)

/-- C6 witness: instantiated at the token (7, 3, 1) with the returned
span (7, 3), mutated to the span (9, 4). -/
theorem getText_value_semantics_witness :
    Text.mk 7 3 = Text.mk (Token.mk 7 3 1).m_buffer (Token.mk 7 3 1).m_length ∧
      ((Token.mk 7 3 1).SetText 9 4).GetText = Text.mk 9 4 ∧
      Text.mk 7 3 = (Token.mk 7 3 1).GetText ∧
      (9 ≠ (Token.mk 7 3 1).m_buffer ∨ 4 ≠ (Token.mk 7 3 1).m_length →
        Text.mk 7 3 ≠ ((Token.mk 7 3 1).SetText 9 4).GetText) :=
  getText_value_semantics (Token.mk 7 3 1) (Text.mk 7 3) 9 4 (by decide)

/-- C7: in a scanner state over one shared buffer, mutating one token
by SetText or SetType — even when the two tokens view overlapping
subranges — changes neither the other token's GetText()/GetType()
results nor the buffer characters it views, and vice versa. -/
theorem tokens_no_interference (s : ScanState) (b : cString) (l : uInt) (ty : uInt2)
    (hov : overlaps s.t1 s.t2) :
    ((s.setText1 b l).t2.GetText = s.t2.GetText ∧
        (s.setText1 b l).t2.GetType = s.t2.GetType ∧
        readChars (s.setText1 b l).buf (s.setText1 b l).t2 = readChars s.buf s.t2) ∧
      ((s.setType1 ty).t2.GetText = s.t2.GetText ∧
        (s.setType1 ty).t2.GetType = s.t2.GetType ∧
        readChars (s.setType1 ty).buf (s.setType1 ty).t2 = readChars s.buf s.t2) ∧
      ((s.setText2 b l).t1.GetText = s.t1.GetText ∧
        (s.setText2 b l).t1.GetType = s.t1.GetType ∧
        readChars (s.setText2 b l).buf (s.setText2 b l).t1 = readChars s.buf s.t1) ∧
      ((s.setType2 ty).t1.GetText = s.t1.GetText ∧
        (s.setType2 ty).t1.GetType = s.t1.GetType ∧
        readChars (s.setType2 ty).buf (s.setType2 ty).t1 = readChars s.buf s.t1) := by
  exact ⟨⟨rfl, rfl, rfl⟩, ⟨rfl, rfl, rfl⟩, ⟨rfl, rfl, rfl⟩, ⟨rfl, rfl, rfl⟩⟩

/-- C7 witness: buffer "<tag>", token one viewing offsets 0..2 with
type 1, token two viewing the overlapping offsets 1..3 with type 2,
mutated with span (2, 2) and type 9. -/
theorem tokens_no_interference_witness :
    overlaps (Token.mk 0 3 1) (Token.mk 1 3 2) ∧
      (((ScanState.mk [Char.ofNat 60, Char.ofNat 116, Char.ofNat 97, Char.ofNat 103,
              Char.ofNat 62] (Token.mk 0 3 1) (Token.mk 1 3 2)).setText1 2 2).t2.GetText =
          (Token.mk 1 3 2).GetText ∧
        (((ScanState.mk [Char.ofNat 60, Char.ofNat 116, Char.ofNat 97, Char.ofNat 103,
              Char.ofNat 62] (Token.mk 0 3 1) (Token.mk 1 3 2)).setText1 2 2).t2.GetType =
          (Token.mk 1 3 2).GetType) ∧
        readChars ((ScanState.mk [Char.ofNat 60, Char.ofNat 116, Char.ofNat 97, Char.ofNat 103,
              Char.ofNat 62] (Token.mk 0 3 1) (Token.mk 1 3 2)).setText1 2 2).buf
            ((ScanState.mk [Char.ofNat 60, Char.ofNat 116, Char.ofNat 97, Char.ofNat 103,
              Char.ofNat 62] (Token.mk 0 3 1) (Token.mk 1 3 2)).setText1 2 2).t2 =
          readChars [Char.ofNat 60, Char.ofNat 116, Char.ofNat 97, Char.ofNat 103,
              Char.ofNat 62] (Token.mk 1 3 2)) :=
  ⟨by decide,
    (tokens_no_interference
        (ScanState.mk [Char.ofNat 60, Char.ofNat 116, Char.ofNat 97, Char.ofNat 103,
          Char.ofNat 62] (Token.mk 0 3 1) (Token.mk 1 3 2)) 2 2 9 (by decide)).1⟩

/-- C8: no operation of Token has an error path: for every input —
including type values outside any recognized category enumeration —
both constructors, SetText, SetType, GetText and GetType each produce
a result unconditionally, with no validation; in particular SetType
stores any tag verbatim and GetType returns it. -/
theorem no_error_paths (t j : Token) (b : cString) (l : uInt) (ty : uInt2) :
    (∃ r : Token, Token.mkDefault j = r) ∧
      (∃ r : Token, Token.construct b l ty = r) ∧
      (∃ r : Token, t.SetText b l = r) ∧
      (∃ r : Token, t.SetType ty = r) ∧
      (∃ x : Text, t.GetText = x) ∧
      (∃ n : uInt2, t.GetType = n) ∧
      (t.SetType ty).GetType = ty := by
  exact ⟨⟨_, rfl⟩, ⟨_, rfl⟩, ⟨_, rfl⟩, ⟨_, rfl⟩, ⟨_, rfl⟩, ⟨_, rfl⟩, rfl⟩

/-- C9: every operation terminates unconditionally on every input:
each is a total function given by a single straight-line field copy,
whose value the following closed forms exhibit. -/
theorem operations_total (t j : Token) (b : cString) (l : uInt) (ty : uInt2) :
    Token.mkDefault j = j ∧
      Token.construct b l ty = Token.mk b l ty ∧
      t.SetText b l = Token.mk b l t.m_type ∧
      t.GetText = Text.mk t.m_buffer t.m_length ∧
      t.SetType ty = Token.mk t.m_buffer t.m_length ty ∧
      t.GetType = t.m_type := by
  exact ⟨rfl, rfl, rfl, rfl, rfl, rfl⟩

/-- C10: SetText and the combined constructor store the given
(buffer, length) pair verbatim, with no normalization, clamping, or
relation enforced between the fields: GetText() returns exactly the
stored pair for every input, including a null buffer pointer with
non-zero length and a zero length with any pointer. -/
theorem setText_stores_verbatim (t : Token) (b : cString) (l : uInt) (ty : uInt2) :
    (t.SetText b l).GetText = Text.mk b l ∧
      (Token.construct b l ty).GetText = Text.mk b l ∧
      (t.SetText 0 5).GetText = Text.mk 0 5 ∧
      (t.SetText b 0).GetText = Text.mk b 0 ∧
      (Token.construct 0 5 ty).GetText = Text.mk 0 5 ∧
      (Token.construct b 0 ty).GetText = Text.mk b 0 := by
  exact ⟨rfl, rfl, rfl, rfl, rfl, rfl⟩
